import Mathlib

/-!
Verification of the Windows file-explorer console tool (utils.py, navigation.py,
analysis.py, search.py) against its natural-language specification.

The filesystem and other host services (attribute bitmasks, stat, file bytes)
are modelled by an abstract `WinFS` record of query functions; every repository
function is translated from the Python source into a total Lean function over
that model.  Machine details that the claims do not exercise are modelled as
follows and noted at the definition site: Python `str.lower`/`str.isalpha` are
restricted to the alphabets actually used, `float` arithmetic in `format_size`
is modelled as exact rational rounding (round-half-even, as CPython's `.1f`
performs on exactly representable values), and the MD5 digest is modelled as an
injective digest of the file's bytes.
-/

namespace WinExplorer

/-- Model of Python `str.lower`, restricted to ASCII letters and the Russian
Cyrillic block (the only cased characters this development evaluates on). -/
def pyLowerChar (c : Char) : Char :=
  if 'A' ≤ c ∧ c ≤ 'Z' then Char.ofNat (c.toNat + 32)
  else if 0x410 ≤ c.toNat ∧ c.toNat ≤ 0x42F then Char.ofNat (c.toNat + 32)
  else if c.toNat = 0x401 then Char.ofNat 0x451
  else c

def pyLower (s : String) : String := String.mk (s.data.map pyLowerChar)

/-- `startsList n l` = `l` begins with `n` (Python `str.startswith` on sequences). -/
def startsList {α : Type} [DecidableEq α] : List α → List α → Bool
  | [], _ => true
  | _ :: _, [] => false
  | a :: as, b :: bs => a = b && startsList as bs

/-- `endsList n l` = `l` ends with `n` (Python `str.endswith` on sequences). -/
def endsList {α : Type} [DecidableEq α] (n l : List α) : Bool :=
  startsList n.reverse l.reverse

/-- `occursList n l` = `n` occurs contiguously inside `l` (Python `in` on strings). -/
def occursList {α : Type} [DecidableEq α] (n : List α) : List α → Bool
  | [] => n.isEmpty
  | b :: t => startsList n (b :: t) || occursList n t

/-- Python `needle in haystack` for strings. -/
def strHas (needle haystack : String) : Bool := occursList needle.data haystack.data

/-- Python `x in l` membership test. -/
def listHas {α : Type} [DecidableEq α] (a : α) (l : List α) : Bool :=
  l.any (fun x => x = a)

/-- Python `str.count` for a single character. -/
def countOcc {α : Type} [DecidableEq α] (a : α) (l : List α) : Nat :=
  (l.filter (fun x => x = a)).length

/-- Python `str.find` for a character known to occur (returns the length when
absent; every use in the source is guarded by a containment check). -/
def firstIdx {α : Type} [DecidableEq α] (a : α) : List α → Nat
  | [] => 0
  | b :: bs => if b = a then 0 else firstIdx a bs + 1

/-- The localized messages of `ru_local.py`.  Modelled from the spec: the
message catalog module is not part of the sources provided; the spec states it
is an immutable table of distinct localized templates, so each constant is
modelled as a distinct token (`forbiddenChar` carries the offending character,
as `ru.FORBIDDEN_CHAR.format(char=...)` does). -/
inductive RuMsg : Type
  | empty
  | onlyWindows
  | tooManyColons
  | colonPosition
  | invalidDrive
  | missingBackslash
  | forbiddenChar (c : Char)
  | pathTooLong
  deriving DecidableEq

/-- utils.py line 52: `forbidden_chars = ['/', '*', '?', '"', '<', '>', '|']`. -/
def forbidden_chars : List Char := ['/', '*', '?', '"', '<', '>', '|']

/-- The colon block of `validate_windows_path` (utils.py lines 38-50).
`Char.isAlpha` models Python's `str.isalpha` (exact on the ASCII drive letters
exercised; no claim depends on non-ASCII alphabetic drive letters). -/
def colonChecks (cs : List Char) : Option RuMsg :=
  if listHas ':' cs then
    if 1 < countOcc ':' cs then some .tooManyColons
    else if firstIdx ':' cs ≠ 1 then some .colonPosition
    else if ¬ (cs.headD ' ').isAlpha then some .invalidDrive
    else if 2 < cs.length ∧ cs.get? 2 ≠ some '\\' then some .missingBackslash
    else none
  else none

/-- utils.py lines 25-60, `validate_windows_path`: pure path-syntax validation
(`is_windows` is the host's `platform.system() == "Windows"` answer).  The
function consults nothing but its arguments. -/
def validate_windows_path (is_windows : Bool) (path : String) : Bool × RuMsg :=
  if !is_windows then (false, .onlyWindows)
  else
    let cs := path.data
    match colonChecks cs with
    | some e => (false, e)
    | none =>
      match forbidden_chars.find? (fun c => listHas c cs) with
      | some c => (false, .forbiddenChar c)
      | none =>
        if 260 < cs.length then (false, .pathTooLong)
        else (true, .empty)

/-- Rounding of the exact rational `num/den` to one decimal digit, ties to even:
the value CPython's `f"{num/den:.1f}"` prints whenever `num/den` is exactly
representable as a double (true at every input any theorem below evaluates). -/
def oneDecimalRHE (num den : Nat) : Nat :=
  let t := num * 10
  let q := t / den
  let r := t % den
  if den < 2 * r then q + 1
  else if 2 * r < den then q
  else if q % 2 = 1 then q + 1 else q

def oneDecimalStr (num den : Nat) : String :=
  toString (oneDecimalRHE num den / 10) ++ "." ++ toString (oneDecimalRHE num den % 10)

/-- utils.py lines 63-80, `format_size`. -/
def format_size (size_bytes : Nat) : String :=
  if size_bytes < 1024 then toString size_bytes ++ " B"
  else if size_bytes < 1024 ^ 2 then oneDecimalStr size_bytes 1024 ++ " KB"
  else if size_bytes < 1024 ^ 3 then oneDecimalStr size_bytes (1024 ^ 2) ++ " MB"
  else if size_bytes < 1024 ^ 4 then oneDecimalStr size_bytes (1024 ^ 3) ++ " GB"
  else oneDecimalStr size_bytes (1024 ^ 4) ++ " TB"

/-! ### CPython `ntpath` string functions used by the sources
(`os.path.join/basename/splitext/normpath` on the Windows host). -/

def isSep (c : Char) : Bool := c = '\\' || c = '/'

/-- Index of the first occurrence of `a` at or after `start` (Python `str.find(a, start)`). -/
def idxFrom (a : Char) (l : List Char) (start : Nat) : Option Nat :=
  ((l.drop start).findIdx? (fun c => c = a)).map (· + start)

/-- CPython `ntpath.splitdrive` (drive-letter and UNC forms). -/
def splitdrive (p : List Char) : List Char × List Char :=
  if 2 ≤ p.length then
    let normp := p.map (fun c => if c = '/' then '\\' else c)
    if normp.take 2 = ['\\', '\\'] ∧ normp.get? 2 ≠ some '\\' then
      match idxFrom '\\' normp 2 with
      | none => ([], p)
      | some index =>
        match idxFrom '\\' normp (index + 1) with
        | none => (p, [])
        | some index2 =>
          if index2 = index + 1 then ([], p)
          else (p.take index2, p.drop index2)
    else if normp.get? 1 = some ':' then (p.take 2, p.drop 2)
    else ([], p)
  else ([], p)

/-- Python `str.split(sep)` for a single separator character. -/
def splitOnChar (sep : Char) : List Char → List (List Char)
  | [] => [[]]
  | a :: rest =>
    match splitOnChar sep rest with
    | [] => [[]]
    | h :: t => if a = sep then [] :: h :: t else (a :: h) :: t

/-- The component-elimination loop of CPython `ntpath.normpath` (drops empty and
`.` components; `..` pops a previous non-`..` component, is dropped at the root,
and is kept otherwise). -/
def normComps (rooted : Bool) : List (List Char) → List (List Char) → List (List Char)
  | acc, [] => acc.reverse
  | acc, c :: rest =>
    if c = [] ∨ c = ['.'] then normComps rooted acc rest
    else if c = ['.', '.'] then
      match acc with
      | a :: acc2 =>
        if a ≠ ['.', '.'] then normComps rooted acc2 rest
        else normComps rooted (c :: a :: acc2) rest
      | [] => if rooted then normComps rooted [] rest else normComps rooted [c] rest
    else normComps rooted (c :: acc) rest

/-- CPython `ntpath.normpath`. -/
def normpathL (cs : List Char) : List Char :=
  if startsList "\\\\.\\".data cs ∨ startsList "\\\\?\\".data cs then cs
  else
    let cs2 := cs.map (fun c => if c = '/' then '\\' else c)
    let dp := splitdrive cs2
    let rooted := dp.2.headD ' ' = '\\'
    let pre := if rooted then dp.1 ++ ['\\'] else dp.1
    let rest := if rooted then dp.2.dropWhile (fun c => c = '\\') else dp.2
    let comps := normComps (endsList ['\\'] pre) [] (splitOnChar '\\' rest)
    let comps2 := if pre = [] ∧ comps = [] then [['.']] else comps
    pre ++ List.intercalate ['\\'] comps2

/-- navigation.py lines 211-215, `normalize_windows_path` (= `os.path.normpath`). -/
def normalize_windows_path (path : String) : String := String.mk (normpathL path.data)

/-- CPython `ntpath.join` restricted to two arguments, the only form the
sources use (`os.path.join(current_path, item_name)`). -/
def ntJoinL (path b : List Char) : List Char :=
  let rd := (splitdrive path).1
  let rp := (splitdrive path).2
  let pd := (splitdrive b).1
  let pp := (splitdrive b).2
  let appendTo : List Char → List Char := fun base =>
    (if base ≠ [] ∧ ¬ isSep (base.getLastD ' ') then base ++ ['\\'] else base) ++ pp
  let step : List Char × List Char :=
    if pp ≠ [] ∧ isSep (pp.headD ' ') then
      (if pd ≠ [] ∨ rd = [] then pd else rd, pp)
    else if pd ≠ [] ∧ pd ≠ rd then
      if pd.map pyLowerChar ≠ rd.map pyLowerChar then (pd, pp)
      else (pd, appendTo rp)
    else (rd, appendTo rp)
  if step.2 ≠ [] ∧ ¬ isSep (step.2.headD ' ') ∧ step.1 ≠ [] ∧ step.1.getLastD ' ' ≠ ':' then
    step.1 ++ ['\\'] ++ step.2
  else step.1 ++ step.2

def ntJoin (path b : String) : String := String.mk (ntJoinL path.data b.data)

/-- CPython `ntpath.basename` (the tail of `ntpath.split`). -/
def ntBasename (p : String) : String :=
  String.mk (((splitdrive p.data).2.reverse.takeWhile (fun c => ¬ isSep c)).reverse)

/-- Helper for `ntSplitext`: Python `str.rfind` (`-1` when absent). -/
def rfindAux (f : Char → Bool) : List Char → Nat → Int → Int
  | [], _, acc => acc
  | c :: rest, i, acc => rfindAux f rest (i + 1) (if f c then Int.ofNat i else acc)

/-- CPython `ntpath.splitext`: split off the extension at the last dot of the
final path component, unless that component's leading characters are all dots. -/
def ntSplitext (p : String) : String × String :=
  let cs := p.data
  let sepIndex := rfindAux isSep cs 0 (-1)
  let dotIndex := rfindAux (fun c => c = '.') cs 0 (-1)
  if sepIndex < dotIndex then
    let fnameStart := (sepIndex + 1).toNat
    let middle := (cs.drop fnameStart).take (dotIndex.toNat - fnameStart)
    if middle.all (fun c => c = '.') then (p, "")
    else (String.mk (cs.take dotIndex.toNat), String.mk (cs.drop dotIndex.toNat))
  else (p, "")

/-! ### The host filesystem model -/

structure StatInfo where
  st_mtime : Int
  st_size : Nat
  deriving DecidableEq

/-- Abstract model of the host filesystem and attribute services.  Each field is
one OS query the sources perform; `none` models the call raising `OSError` (for
`attrMask`: the attribute bitmask being unavailable or `INVALID_FILE_ATTRIBUTES`;
for `content`: `open`/`read` failing).  `fmtDate` models the host-local
`datetime.fromtimestamp(ts).strftime("%Y-%m-%d")` rendering, which no claim
constrains. -/
structure WinFS where
  listdir : String → Option (List String)
  statQ : String → Option StatInfo
  isdir : String → Bool
  isfile : String → Bool
  pathExists : String → Bool
  attrMask : String → Option Nat
  writable : String → Bool
  content : String → Option (List Nat)
  fmtDate : Int → String

/-- utils.py lines 99-111, `safe_windows_listdir`: swallows every `OSError`
(`PermissionError`/`FileNotFoundError` are its subclasses) into `[]`. -/
def safe_windows_listdir (fs : WinFS) (path : String) : List String :=
  (fs.listdir path).getD []

/-- utils.py lines 114-132, `is_hidden_windows_file`: bit `0x2` of the host
attribute bitmask; `false` when the bitmask is unavailable or any step raises.
On a non-Windows host `st_file_attributes` is absent and the `ctypes.windll`
lookup raises, so the function returns `false`. -/
def is_hidden_windows_file (is_windows : Bool) (fs : WinFS) (path : String) : Bool :=
  if is_windows then
    match fs.attrMask path with
    | some marks => marks &&& 2 ≠ 0
    | none => false
  else false

/-- navigation.py line 203: `system_keywords`. -/
def system_keywords : List String :=
  ["Windows", "Program Files", "ProgramData", "$", "System Volume Information"]

/-- navigation.py lines 199-208, `is_windows_system_path`. -/
def is_windows_system_path (path : String) : Bool :=
  system_keywords.any (fun keyword => strHas keyword (normalize_windows_path path))

structure WinAttrs where
  hidden : Bool
  system : Bool
  readonly : Bool
  archive : Bool
  compressed : Bool
  encrypted : Bool
  deriving DecidableEq

def defaultAttrs : WinAttrs :=
  { hidden := false, system := false, readonly := false,
    archive := false, compressed := false, encrypted := false }

/-- analysis.py lines 47-107, `get_windows_file_attributes`.  If the initial
`os.stat` raises, all attributes stay at their defaults.  On Windows the ctypes
bitmask fills the non-hidden bits (an `INVALID_FILE_ATTRIBUTES` answer, modelled
as `none`, leaves them at their defaults); on other hosts the
`ImportError`/`AttributeError` fallback heuristics run. -/
def get_windows_file_attributes (is_windows : Bool) (fs : WinFS) (file_path : String) : WinAttrs :=
  match fs.statQ file_path with
  | none => defaultAttrs
  | some _ =>
    let hidden := is_hidden_windows_file is_windows fs file_path
    if is_windows then
      match fs.attrMask file_path with
      | some attrs =>
        { hidden := hidden,
          readonly := attrs &&& 0x1 ≠ 0,
          system := attrs &&& 0x4 ≠ 0,
          archive := attrs &&& 0x20 ≠ 0,
          compressed := attrs &&& 0x800 ≠ 0,
          encrypted := attrs &&& 0x4000 ≠ 0 }
      | none => { defaultAttrs with hidden := hidden }
    else
      { hidden := hidden,
        readonly := ! fs.writable file_path,
        system := strHas "system" (pyLower file_path) ||
          startsList "system".data (pyLower file_path).data,
        archive := endsList ".zip".data file_path.data || endsList ".rar".data file_path.data,
        compressed := false, encrypted := false }

structure DirEntry where
  name : String
  type : String
  size : Nat
  modified : String
  hidden : Bool
  deriving DecidableEq

/-- navigation.py lines 33-76, `list_directory`: fails only on invalid path
syntax; listing failures become `[]` via `safe_windows_listdir`; an entry whose
`os.stat` raises is skipped (`continue`). -/
def list_directory (is_windows : Bool) (fs : WinFS) (path : String) : Bool × List DirEntry :=
  if (validate_windows_path is_windows path).1 = false then (false, [])
  else
    (true, (safe_windows_listdir fs path).filterMap (fun item_name =>
      let item_path := ntJoin path item_name
      match fs.statQ item_path with
      | none => none
      | some stat_info =>
        let is_file := fs.isfile item_path
        some { name := item_name,
               type := if is_file then "file" else "folder",
               size := if is_file then stat_info.st_size else 0,
               modified := fs.fmtDate stat_info.st_mtime,
               hidden := is_hidden_windows_file is_windows fs item_path }))

/-- The inner `count_recursive` of analysis.py lines 393-408 (`nonlocal total`
accumulation rendered as a sum; the depth guard is `depth > 20`).  The fuel is
an upper bound on nesting (the wrapper passes 22, which the depth guard keeps
from ever running out). -/
def count_recursive (is_windows : Bool) (fs : WinFS) : Nat → String → Nat → Nat
  | 0, _, _ => 0
  | fuel + 1, current_path, depth =>
    if 20 < depth then 0
    else
      let r := list_directory is_windows fs current_path
      if r.1 = false then 0
      else r.2.foldl (fun total item =>
        if item.type = "folder" then
          total + count_recursive is_windows fs fuel (ntJoin current_path item.name) (depth + 1)
        else total + 1) 0

/-- analysis.py lines 381-418, `count_files`.  Nothing in the modelled body can
raise, so the `except Exception` arm returning `(False, 0)` is unreachable. -/
def count_files (is_windows : Bool) (fs : WinFS) (path : String) : Bool × Nat :=
  if (validate_windows_path is_windows path).1 = false then (false, 0)
  else (true, count_recursive is_windows fs 22 path 0)

/-- The inner `sum_recursive` of analysis.py lines 433-448. -/
def sum_recursive (is_windows : Bool) (fs : WinFS) : Nat → String → Nat → Nat
  | 0, _, _ => 0
  | fuel + 1, current_path, depth =>
    if 20 < depth then 0
    else
      let r := list_directory is_windows fs current_path
      if r.1 = false then 0
      else r.2.foldl (fun total_bytes item =>
        if item.type = "folder" then
          total_bytes + sum_recursive is_windows fs fuel (ntJoin current_path item.name) (depth + 1)
        else total_bytes + item.size) 0

/-- analysis.py lines 421-458, `count_bytes`. -/
def count_bytes (is_windows : Bool) (fs : WinFS) (path : String) : Bool × Nat :=
  if (validate_windows_path is_windows path).1 = false then (false, 0)
  else (true, sum_recursive is_windows fs 22 path 0)

/-! ### navigation.py tree building and structure analysis -/

inductive WTree : Type
  | dir (name : String) (type : String) (children : List WTree)
  | file (name : String) (type : String) (hidden : Bool)

def WTree.nodeType : WTree → String
  | .dir _ t _ => t
  | .file _ t _ => t

def WTree.nodeChildren : WTree → List WTree
  | .dir _ _ c => c
  | .file _ _ _ => []

/-- navigation.py lines 218-283, `build_windows_tree_recursive`.  The wrapper
below instantiates the fuel so that the `0` case is unreachable (each recursive
call decreases `max_depth - depth` by one, and the `depth >= max_depth` branch
fires before fuel runs out).  In the model no operation inside the `try` blocks
can raise (`safe_windows_listdir` already swallows `OSError`), so their handler
arms are dead. -/
def build_windows_tree_aux (is_windows : Bool) (fs : WinFS) :
    Nat → String → Nat → Nat → WTree
  | 0, path, _, _ => .dir (ntBasename path) "directory" []
  | fuel + 1, path, depth, max_depth =>
    if max_depth ≤ depth then .dir (ntBasename path) "directory" []
    else if is_windows_system_path path then .dir (ntBasename path) "system_directory" []
    else
      let children := (safe_windows_listdir fs path).map (fun item_name =>
        let item_path := ntJoin path item_name
        if fs.isdir item_path then
          if is_windows_system_path item_path then WTree.dir item_name "system_directory" []
          else build_windows_tree_aux is_windows fs fuel item_path (depth + 1) max_depth
        else WTree.file item_name "file" (is_hidden_windows_file is_windows fs item_path))
      .dir (ntBasename path) "directory" children

def build_windows_tree_recursive (is_windows : Bool) (fs : WinFS)
    (path : String) (depth : Nat := 0) (max_depth : Nat := 5) : WTree :=
  build_windows_tree_aux is_windows fs (max_depth - depth + 1) path depth max_depth

/-- navigation.py lines 317-369, `analyze_windows_structure_recursive` (the
wrapper below passes fuel 12, which the `level > 10` guard keeps from running
out).  Inside the `try`, no modelled operation can raise —
`safe_windows_listdir` swallows every `OSError` from the enumeration — so the
`except Exception` arm appending `(level, "ERROR", path)` is unreachable. -/
def analyze_structure_aux (is_windows : Bool) (fs : WinFS) (pattern : String) :
    Nat → String → Nat → List (Nat × String × String)
  | 0, _, _ => []
  | fuel + 1, path, level =>
    if 10 < level then []
    else
      (safe_windows_listdir fs path).foldl (fun result item_name =>
        let item_path := ntJoin path item_name
        if fs.pathExists item_path = false then result
        else
          let elem_type :=
            if fs.isdir item_path then
              if is_windows_system_path item_path then "SYS_DIR"
              else if is_hidden_windows_file is_windows fs item_path then "HID_DIR"
              else "DIR"
            else
              if is_hidden_windows_file is_windows fs item_path then "HID_FILE" else "FILE"
          -- files only: pattern "*" stripped of stars, applied as a
          -- case-folded suffix test (`str.replace("*", "")` = dropping stars)
          if fs.isdir item_path = false ∧ pattern ≠ "*" ∧
              endsList (pyLower (String.mk (pattern.data.filter (fun c => c ≠ '*')))).data
                (pyLower item_name).data = false then result
          else
            let result2 := result ++ [(level, elem_type, normalize_windows_path item_path)]
            if fs.isdir item_path ∧ elem_type ≠ "SYS_DIR" ∧
                is_windows_system_path item_path = false then
              result2 ++ analyze_structure_aux is_windows fs pattern fuel item_path (level + 1)
            else result2) []

def analyze_windows_structure_recursive (is_windows : Bool) (fs : WinFS)
    (path : String) (pattern : String := "*") (level : Nat := 0) :
    List (Nat × String × String) :=
  analyze_structure_aux is_windows fs pattern 12 path level

/-! ### analysis.py file walk, duplicate grouping, growth prediction -/

/-- The inner `walk_recursive` of analysis.py lines 27-44 (`safe_file_walk`,
`max_depth = 100`): yields file paths in traversal order, threading the mutable
`visited` set (a list here) through the recursion. -/
def walk_aux (fs : WinFS) : Nat → String → Nat → List String → List String × List String
  | 0, _, _, visited => ([], visited)
  | fuel + 1, current_path, current_depth, visited =>
    if 100 < current_depth ∨ listHas current_path visited then ([], visited)
    else
      (safe_windows_listdir fs current_path).foldl (fun acc item =>
        let item_path := ntJoin current_path item
        if fs.isdir item_path then
          let r := walk_aux fs fuel item_path (current_depth + 1) acc.2
          (acc.1 ++ r.1, r.2)
        else if fs.isfile item_path then (acc.1 ++ [item_path], acc.2)
        else acc) ([], current_path :: visited)

/-- analysis.py lines 16-44, `safe_file_walk` with the default `max_depth = 100`
(fuel 102 covers the deepest chain the `current_depth > 100` guard admits). -/
def safe_file_walk (fs : WinFS) (path : String) : List String :=
  (walk_aux fs 102 path 0 []).1

/-- analysis.py lines 180-184: the default checksum, a streaming MD5 of the
file's bytes.  Modelled as an injective digest (the byte sequence itself); every
claim about it quantifies over checksum equality only. -/
def md5_digest (content : List Nat) : List Nat := content

/-- `defaultdict(list)` keyed by digest, preserving insertion order. -/
def addDup (h : List Nat) (p : String) :
    List (List Nat × List String) → List (List Nat × List String)
  | [] => [(h, [p])]
  | (k, ps) :: rest =>
    if k = h then (k, ps ++ [p]) :: rest else (k, ps) :: addDup h p rest

/-- One iteration of the file loop of analysis.py lines 164-190 over the state
`(visited, duplicates)`: skip already-visited and syntactically invalid paths
and files whose attributes flag `system`; a failed read (`none` content) is the
`except Exception: continue`. -/
def dupStep (is_windows : Bool) (fs : WinFS)
    (st : List String × List (List Nat × List String)) (file_path : String) :
    List String × List (List Nat × List String) :=
  if listHas file_path st.1 then st
  else if (validate_windows_path is_windows file_path).1 = false then st
  else if (get_windows_file_attributes is_windows fs file_path).system then st
  else
    match fs.content file_path with
    | none => st
    | some bytes => (file_path :: st.1, addDup (md5_digest bytes) file_path st.2)

/-- analysis.py lines 145-192, `find_duplicate_files_recursive` with the default
checksum; only digest groups with more than one member survive. -/
def find_duplicate_files_recursive (is_windows : Bool) (fs : WinFS)
    (path : String) (visited : List String := []) : List (List Nat × List String) :=
  ((safe_file_walk fs path).foldl (dupStep is_windows fs) (visited, [])).2.filter
    (fun g => 1 < g.2.length)

/-- One collected `(st_mtime, st_size)` sample of analysis.py lines 308-320
(times in seconds, sizes in bytes; exact rationals model the Python floats). -/
structure GrowthSample where
  time : ℚ
  size : ℚ
  deriving DecidableEq

/-- Python `list.sort(key=lambda x: x['time'])` (ascending insertion sort; the
slope below is invariant under the order of equal-time samples). -/
def insertByTime (x : GrowthSample) : List GrowthSample → List GrowthSample
  | [] => [x]
  | y :: ys => if x.time < y.time then x :: y :: ys else y :: insertByTime x ys

def sortByTime (l : List GrowthSample) : List GrowthSample := l.foldr insertByTime []

def qsum (l : List ℚ) : ℚ := l.foldl (· + ·) 0

/-- analysis.py line 361: elapsed days since the earliest sample. -/
def elapsedDays (data : List GrowthSample) : List ℚ :=
  let s := sortByTime data
  s.map (fun d => (d.time - (s.headD ⟨0, 0⟩).time) / (24 * 60 * 60))

/-- analysis.py line 362: sizes in megabytes. -/
def sizesMB (data : List GrowthSample) : List ℚ :=
  (sortByTime data).map (fun d => d.size / (1024 * 1024))

/-- analysis.py line 371: `n * sum_x2 - sum_x * sum_x`. -/
def olsDen (data : List GrowthSample) : ℚ :=
  let xs := elapsedDays data
  (xs.length : ℚ) * qsum (xs.map (fun x => x * x)) - qsum xs * qsum xs

/-- analysis.py line 373: `(n * sum_xy - sum_x * sum_y) / denominator`. -/
def olsSlope (data : List GrowthSample) : ℚ :=
  let xs := elapsedDays data
  let ys := sizesMB data
  ((xs.length : ℚ) * qsum (List.zipWith (· * ·) xs ys) - qsum xs * qsum ys) / olsDen data

/-- The prediction loop of analysis.py lines 355-378
(`predict_storage_growth_recursive`), taking the collected `growth_data` as
input: files with fewer than 3 samples or a zero denominator produce no entry
(the guarded division can no longer raise, so the `except ZeroDivisionError`
arm is dead). -/
def predict_storage_growth_recursive (growth_data : List (String × List GrowthSample)) :
    List (String × ℚ) :=
  growth_data.filterMap (fun e =>
    if 3 ≤ e.2.length then
      if olsDen e.2 ≠ 0 then some (e.1, olsSlope e.2) else none
    else none)

/-! ### search.py security scan -/

structure SecurityRules where
  suspicious_locations : List String
  dangerous_extensions : List String
  max_temp_file_age_days : Int
  check_hidden_files : Bool
  check_open_permissions : Bool

/-- search.py lines 591-597, `default_rules`. -/
def default_rules : SecurityRules :=
  { suspicious_locations := ["temp", "downloads", "appdata\\local\\temp"],
    dangerous_extensions := [".exe", ".bat", ".cmd", ".ps1", ".vbs", ".js"],
    max_temp_file_age_days := 30,
    check_hidden_files := true,
    check_open_permissions := true }

/-- Caller-supplied `security_rules` overrides, merged onto the defaults by
`{**default_rules, **security_rules}` (search.py line 599). -/
structure RuleOverrides where
  suspicious_locations : Option (List String) := none
  dangerous_extensions : Option (List String) := none
  max_temp_file_age_days : Option Int := none
  check_hidden_files : Option Bool := none
  check_open_permissions : Option Bool := none

def mergeRules (ov : RuleOverrides) : SecurityRules :=
  { suspicious_locations := ov.suspicious_locations.getD default_rules.suspicious_locations,
    dangerous_extensions := ov.dangerous_extensions.getD default_rules.dangerous_extensions,
    max_temp_file_age_days := ov.max_temp_file_age_days.getD default_rules.max_temp_file_age_days,
    check_hidden_files := ov.check_hidden_files.getD default_rules.check_hidden_files,
    check_open_permissions := ov.check_open_permissions.getD default_rules.check_open_permissions }

/-- A finding dict of search.py lines 636-682; keys absent from a given category
are `none`. -/
structure SecurityFinding where
  path : String
  name : Option String
  ftype : Option String
  location : Option String
  reason : String
  severity : String
  deriving DecidableEq

abbrev ScanResults := List (String × List SecurityFinding)

def assocLookup {β : Type} (k : String) : List (String × β) → Option β
  | [] => none
  | e :: rest => if e.1 = k then some e.2 else assocLookup k rest

/-- `results[category].append(finding)` on the insertion-ordered dict. -/
def addFinding (k : String) (f : SecurityFinding) (m : ScanResults) : ScanResults :=
  m.map (fun e => if e.1 = k then (e.1, e.2 ++ [f]) else e)

/-- search.py line 583-589: the five fixed result categories, in insertion order. -/
def initScanResults : ScanResults :=
  [("suspicious_executables", []), ("open_permissions", []), ("hidden_objects", []),
   ("temp_files", []), ("potential_threats", [])]

/-- search.py lines 603-608, `check_suspicious_location`. -/
def check_suspicious_location (rules : SecurityRules) (file_path : String) : Bool :=
  rules.suspicious_locations.any (fun location => strHas location (pyLower file_path))

/-- search.py lines 610-612, `check_dangerous_extension`. -/
def check_dangerous_extension (rules : SecurityRules) (filename : String) : Bool :=
  listHas (pyLower (ntSplitext filename).2) rules.dangerous_extensions

/-- search.py lines 614-621, `check_temp_file_age` (`now` is `time.time()`;
a failed `os.stat` yields `false`). -/
def check_temp_file_age (fs : WinFS) (rules : SecurityRules) (now : Int)
    (file_path : String) : Bool :=
  match fs.statQ file_path with
  | none => false
  | some stat_info =>
    rules.max_temp_file_age_days * 24 * 60 * 60 < now - stat_info.st_mtime

/-- The per-item body of `scan_recursive` (search.py lines 631-684), with the
recursive descent into subfolders supplied as `recurse`. -/
def processScanItem (fs : WinFS) (rules : SecurityRules) (now : Int)
    (recurse : String → ScanResults → ScanResults) (current_path : String)
    (item : DirEntry) (results : ScanResults) : ScanResults :=
  let item_path := ntJoin current_path item.name
  if item.type = "folder" then
    let r1 :=
      if rules.check_hidden_files ∧ item.hidden then
        addFinding "hidden_objects"
          { path := item_path, name := none, ftype := some "folder", location := none,
            reason := "Hidden folder", severity := "medium" } results
      else results
    recurse item_path r1
  else
    let r1 :=
      if check_dangerous_extension rules item.name ∧
          check_suspicious_location rules item_path then
        addFinding "suspicious_executables"
          { path := item_path, name := some item.name, ftype := none,
            location := some current_path,
            reason := "Executable in suspicious location", severity := "high" } results
      else results
    let r2 :=
      if rules.check_hidden_files ∧ item.hidden then
        addFinding "hidden_objects"
          { path := item_path, name := some item.name, ftype := some "file",
            location := none, reason := "Hidden file", severity := "low" } r1
      else r1
    let r3 :=
      if (strHas "temp" (pyLower item_path) ∨
            endsList ".tmp".data (pyLower item.name).data) ∧
          check_temp_file_age fs rules now item_path then
        addFinding "temp_files"
          { path := item_path, name := some item.name, ftype := none, location := none,
            reason := "Old temporary file", severity := "low" } r2
      else r2
    if rules.check_open_permissions ∧ fs.writable item_path ∧
        (strHas "system" (pyLower item_path) ∨ strHas "windows" (pyLower item_path)) then
      addFinding "open_permissions"
        { path := item_path, name := some item.name, ftype := none, location := none,
          reason := "System file is writable", severity := "high" } r3
    else r3

/-- search.py lines 623-684, `scan_recursive` (depth guard `depth > 5`; the
wrapper passes fuel 7, which that guard keeps from running out). -/
def scanLoop (is_windows : Bool) (fs : WinFS) (rules : SecurityRules) (now : Int) :
    Nat → Nat → String → ScanResults → ScanResults
  | 0, _, _, results => results
  | fuel + 1, depth, current_path, results =>
    if 5 < depth then results
    else
      let r := list_directory is_windows fs current_path
      if r.1 = false then results
      else r.2.foldl
        (fun acc item => processScanItem fs rules now
          (fun p m => scanLoop is_windows fs rules now fuel (depth + 1) p m)
          current_path item acc)
        results

/-- search.py lines 574-702, `recursive_security_scan`. -/
def recursive_security_scan (is_windows : Bool) (fs : WinFS) (now : Int)
    (root_path : String) (security_rules : RuleOverrides) : ScanResults :=
  scanLoop is_windows fs (mergeRules security_rules) now 7 0 root_path initScanResults

/-! ### search.py content search: Python text decoding -/

def isCont (b : Nat) : Bool := 0x80 ≤ b ∧ b ≤ 0xBF

/-- Constraint on the first continuation byte of a 3-byte UTF-8 lead
(excludes overlong forms and surrogates, as CPython's strict decoder does). -/
def utf8Cont2Ok (b c1 : Nat) : Bool :=
  if b = 0xE0 then 0xA0 ≤ c1 ∧ c1 ≤ 0xBF
  else if b = 0xED then 0x80 ≤ c1 ∧ c1 ≤ 0x9F
  else isCont c1

/-- Constraint on the first continuation byte of a 4-byte UTF-8 lead. -/
def utf8Cont3Ok (b c1 : Nat) : Bool :=
  if b = 0xF0 then 0x90 ≤ c1 ∧ c1 ≤ 0xBF
  else if b = 0xF4 then 0x80 ≤ c1 ∧ c1 ≤ 0x8F
  else isCont c1

/-- One step of the strict UTF-8 decoder: the scalar value and the number of
bytes consumed, or `none` at an invalid/truncated sequence. -/
def utf8Step : List Nat → Option (Nat × Nat)
  | [] => none
  | b :: rest =>
    if b < 0x80 then some (b, 1)
    else if 0xC2 ≤ b ∧ b ≤ 0xDF then
      match rest with
      | c1 :: _ => if isCont c1 then some ((b - 0xC0) * 0x40 + (c1 - 0x80), 2) else none
      | [] => none
    else if 0xE0 ≤ b ∧ b ≤ 0xEF then
      match rest with
      | c1 :: c2 :: _ =>
        if utf8Cont2Ok b c1 ∧ isCont c2 then
          some ((b - 0xE0) * 0x1000 + (c1 - 0x80) * 0x40 + (c2 - 0x80), 3)
        else none
      | _ => none
    else if 0xF0 ≤ b ∧ b ≤ 0xF4 then
      match rest with
      | c1 :: c2 :: c3 :: _ =>
        if utf8Cont3Ok b c1 ∧ isCont c2 ∧ isCont c3 then
          some ((b - 0xF0) * 0x40000 + (c1 - 0x80) * 0x1000 + (c2 - 0x80) * 0x40 + (c3 - 0x80), 4)
        else none
      | _ => none
    else none

/-- How many bytes CPython's UTF-8 error handling consumes at an invalid
position: the invalid lead plus the maximal run of continuation bytes valid for
it (the "maximal subpart" rule). -/
def utf8BadSkip : List Nat → Nat
  | [] => 1
  | b :: rest =>
    if 0xE0 ≤ b ∧ b ≤ 0xEF then
      match rest with
      | c1 :: _ => if utf8Cont2Ok b c1 then 2 else 1
      | [] => 1
    else if 0xF0 ≤ b ∧ b ≤ 0xF4 then
      match rest with
      | c1 :: c2 :: _ =>
        if utf8Cont3Ok b c1 then (if isCont c2 then 3 else 2) else 1
      | [c1] => if utf8Cont3Ok b c1 then 2 else 1
      | [] => 1
    else 1

/-- Strict UTF-8 decoding (`bytes.decode('utf-8')`); `none` models
`UnicodeDecodeError`.  Fuel is the byte count: every step consumes at least one
byte, so the fuel-exhaustion case is unreachable from the wrapper. -/
def utf8DecodeStrictAux : Nat → List Nat → Option (List Nat)
  | _, [] => some []
  | 0, _ :: _ => none
  | fuel + 1, l =>
    match utf8Step l with
    | none => none
    | some (cp, k) => (utf8DecodeStrictAux fuel (l.drop k)).map (fun t => cp :: t)

def utf8DecodeStrict (bytes : List Nat) : Option (List Nat) :=
  utf8DecodeStrictAux bytes.length bytes

/-- UTF-8 decoding with `errors='ignore'`: invalid sequences are dropped. -/
def utf8DecodeIgnoreAux : Nat → List Nat → List Nat
  | _, [] => []
  | 0, _ :: _ => []
  | fuel + 1, l =>
    match utf8Step l with
    | some (cp, k) => cp :: utf8DecodeIgnoreAux fuel (l.drop k)
    | none => utf8DecodeIgnoreAux fuel (l.drop (utf8BadSkip l))

def utf8DecodeIgnore (bytes : List Nat) : List Nat :=
  utf8DecodeIgnoreAux bytes.length bytes

/-- The code-page-1251 high half (`0x80`-`0xBF`); byte `0x98` is undefined. -/
def cp1251High : List (Option Nat) :=
  [some 0x0402, some 0x0403, some 0x201A, some 0x0453, some 0x201E, some 0x2026,
   some 0x2020, some 0x2021, some 0x20AC, some 0x2030, some 0x0409, some 0x2039,
   some 0x040A, some 0x040C, some 0x040B, some 0x040F, some 0x0452, some 0x2018,
   some 0x2019, some 0x201C, some 0x201D, some 0x2022, some 0x2013, some 0x2014,
   none, some 0x2122, some 0x0459, some 0x203A, some 0x045A, some 0x045C,
   some 0x045B, some 0x045F, some 0x00A0, some 0x040E, some 0x045E, some 0x0408,
   some 0x00A4, some 0x0490, some 0x00A6, some 0x00A7, some 0x0401, some 0x00A9,
   some 0x0404, some 0x00AB, some 0x00AC, some 0x00AD, some 0x00AE, some 0x0407,
   some 0x00B0, some 0x00B1, some 0x0406, some 0x0456, some 0x0491, some 0x00B5,
   some 0x00B6, some 0x00B7, some 0x0451, some 0x2116, some 0x0454, some 0x00BB,
   some 0x0458, some 0x0405, some 0x0455, some 0x0457]

def cp1251Byte (b : Nat) : Option Nat :=
  if b < 0x80 then some b
  else if b < 0xC0 then ((cp1251High.get? (b - 0x80)).getD none)
  else if b ≤ 0xFF then some (0x410 + (b - 0xC0))
  else none

/-- The code-page-866 box-drawing range (`0xB0`-`0xDF`). -/
def cp866Box : List Nat :=
  [0x2591, 0x2592, 0x2593, 0x2502, 0x2524, 0x2561, 0x2562, 0x2556,
   0x2555, 0x2563, 0x2551, 0x2557, 0x255D, 0x255C, 0x255B, 0x2510,
   0x2514, 0x2534, 0x252C, 0x251C, 0x2500, 0x253C, 0x255E, 0x255F,
   0x255A, 0x2554, 0x2569, 0x2566, 0x2560, 0x2550, 0x256C, 0x2567,
   0x2568, 0x2564, 0x2565, 0x2559, 0x2558, 0x2552, 0x2553, 0x256B,
   0x256A, 0x2518, 0x250C, 0x2588, 0x2584, 0x258C, 0x2590, 0x2580]

/-- The code-page-866 tail range (`0xF0`-`0xFF`). -/
def cp866Tail : List Nat :=
  [0x0401, 0x0451, 0x0404, 0x0454, 0x0407, 0x0457, 0x040E, 0x045E,
   0x00B0, 0x2219, 0x00B7, 0x221A, 0x2116, 0x00A4, 0x25A0, 0x00A0]

def cp866Byte (b : Nat) : Option Nat :=
  if b < 0x80 then some b
  else if b < 0xB0 then some (0x410 + (b - 0x80))
  else if b < 0xE0 then cp866Box.get? (b - 0xB0)
  else if b < 0xF0 then some (0x440 + (b - 0xE0))
  else if b ≤ 0xFF then cp866Tail.get? (b - 0xF0)
  else none

def latin1Byte (b : Nat) : Option Nat := if b ≤ 0xFF then some b else none

inductive PyEncoding : Type
  | utf8 | cp1251 | cp866 | latin1
  deriving DecidableEq

/-- search.py line 435: `encodings = ['utf-8', 'cp1251', 'cp866', 'latin-1']`. -/
def encodings : List PyEncoding := [.utf8, .cp1251, .cp866, .latin1]

/-- Strict decoding `bytes.decode(enc)`; `none` models `UnicodeDecodeError`. -/
def decodeStrict : PyEncoding → List Nat → Option (List Nat)
  | .utf8 => utf8DecodeStrict
  | .cp1251 => fun bs => bs.mapM cp1251Byte
  | .cp866 => fun bs => bs.mapM cp866Byte
  | .latin1 => fun bs => bs.mapM latin1Byte

/-- Lossy decoding with `errors='ignore'`: undecodable bytes are dropped.  This
never raises `UnicodeDecodeError`. -/
def decodeIgnore : PyEncoding → List Nat → List Nat
  | .utf8 => utf8DecodeIgnore
  | .cp1251 => fun bs => bs.filterMap cp1251Byte
  | .cp866 => fun bs => bs.filterMap cp866Byte
  | .latin1 => fun bs => bs.filterMap latin1Byte

/-- The encoding loop of search.py lines 443-452.  `openResult` is the byte
content of the file, `none` when `open` raises (the generic `except Exception:
break` leaves `content` as `None`).  Because the file is read with
`errors='ignore'`, `f.read()` cannot raise `UnicodeDecodeError`, so the
`continue` arm that would try the next encoding is unreachable: the first
encoding always wins. -/
def readContentLoop : List PyEncoding → Option (List Nat) → Option (List Nat)
  | [], _ => none
  | encoding :: _, openResult =>
    match openResult with
    | none => none
    | some bytes => some (decodeIgnore encoding bytes)

/-- Python `str.lower` on code points, restricted as in `pyLowerChar`. -/
def pyLowerCp (n : Nat) : Nat :=
  if 65 ≤ n ∧ n ≤ 90 then n + 32
  else if 0x410 ≤ n ∧ n ≤ 0x42F then n + 32
  else if n = 0x401 then 0x451
  else n

/-- Python `content.split('\n')` on code points. -/
def splitLines : List Nat → List (List Nat)
  | [] => [[]]
  | c :: rest =>
    match splitLines rest with
    | [] => [[]]
    | h :: t => if c = 10 then [] :: h :: t else (c :: h) :: t

def strCodepoints (s : String) : List Nat := s.data.map Char.toNat

/-- search.py lines 459-464: 1-based numbers of the lines containing the
case-folded pattern as a substring. -/
def matchingLinesOf (pattern : List Nat) (content : List Nat) : List Nat :=
  (List.enum (splitLines content)).filterMap (fun e =>
    if occursList (pattern.map pyLowerCp) (e.2.map pyLowerCp) then some (e.1 + 1) else none)

/-- search.py lines 437-464, `search_in_file` (returns the matching line numbers
together with the updated `content_cache`). -/
def search_in_file (fs : WinFS) (search_pattern : String)
    (content_cache : List (String × List Nat)) (file_path : String) :
    List Nat × List (String × List Nat) :=
  match assocLookup file_path content_cache with
  | some content => (matchingLinesOf (strCodepoints search_pattern) content, content_cache)
  | none =>
    match readContentLoop encodings (fs.content file_path) with
    | none => ([], content_cache)
    | some content =>
      (matchingLinesOf (strCodepoints search_pattern) content,
       (file_path, content) :: content_cache)

/-- The traversal of search.py lines 466-493 over the state
`(content_cache, results)` (depth guard `depth > 10`; wrapper fuel 12). -/
def contentSearchLoop (is_windows : Bool) (fs : WinFS) (search_pattern : String)
    (file_extensions : Option (List String)) :
    Nat → Nat → String → List (String × List Nat) × List (String × List Nat) →
    List (String × List Nat) × List (String × List Nat)
  | 0, _, _, st => st
  | fuel + 1, depth, current_path, st =>
    if 10 < depth then st
    else
      let r := list_directory is_windows fs current_path
      if r.1 = false then st
      else r.2.foldl (fun st item =>
        let item_path := ntJoin current_path item.name
        if item.type = "folder" then
          contentSearchLoop is_windows fs search_pattern file_extensions
            fuel (depth + 1) item_path st
        else
          -- `if file_extensions:` is falsy for both None and []
          let skip : Bool := match file_extensions with
            | some (e :: es) => ! listHas (pyLower (ntSplitext item.name).2) (e :: es)
            | _ => false
          if skip then st
          else
            let sr := search_in_file fs search_pattern st.1 item_path
            if sr.1 ≠ [] then (sr.2, st.2 ++ [(item_path, sr.1)])
            else (sr.2, st.2)) st

/-- search.py lines 424-503, `recursive_content_search`, with a fresh cache. -/
def recursive_content_search (is_windows : Bool) (fs : WinFS)
    (root_path search_pattern : String) (file_extensions : Option (List String) := none) :
    List (String × List Nat) :=
  (contentSearchLoop is_windows fs search_pattern file_extensions 12 0 root_path ([], [])).2

/-- Follows the spec's words for `searchContent` decoding (§4.5 of the spec):
"attempts text decoding in order UTF-8, code-page-1251, code-page-866, Latin-1,
using the first encoding that decodes without error" — the comparison point for
the refinement claim about the implemented loop. -/
def specDecodeContent (bytes : List Nat) : Option (List Nat) :=
  (encodings.filterMap (fun e => decodeStrict e bytes)).head?

/-! ### Concrete filesystem instances used as witnesses and counterexamples -/

/-- The bytes of `"привет"` encoded in code page 1251 (not valid UTF-8). -/
def c1Bytes : List Nat := [0xEF, 0xF0, 0xE8, 0xE2, 0xE5, 0xF2]

/-- A host with the single cp1251-encoded file `C:\doc\f.txt`. -/
def fsContent : WinFS :=
  { listdir := fun p => if p == "C:\\doc" then some ["f.txt"] else none,
    statQ := fun p => if p == "C:\\doc\\f.txt" then some ⟨1000, 6⟩ else none,
    isdir := fun p => p == "C:\\doc",
    isfile := fun p => p == "C:\\doc\\f.txt",
    pathExists := fun p => p == "C:\\doc" || p == "C:\\doc\\f.txt",
    attrMask := fun _ => some 0,
    writable := fun _ => false,
    content := fun p => if p == "C:\\doc\\f.txt" then some c1Bytes else none,
    fmtDate := fun _ => "2024-01-01" }

/-- A host where enumerating subdirectory `C:\r\A` raises `OSError` while its
sibling `C:\r\B` (holding one file) enumerates normally. -/
def fsErr : WinFS :=
  { listdir := fun p =>
      if p == "C:\\r" then some ["A", "B"]
      else if p == "C:\\r\\B" then some ["f.txt"] else none,
    statQ := fun p =>
      if p == "C:\\r\\A" || p == "C:\\r\\B" || p == "C:\\r\\B\\f.txt" then
        some ⟨1000, 3⟩ else none,
    isdir := fun p => p == "C:\\r" || p == "C:\\r\\A" || p == "C:\\r\\B",
    isfile := fun p => p == "C:\\r\\B\\f.txt",
    pathExists := fun p =>
      p == "C:\\r" || p == "C:\\r\\A" || p == "C:\\r\\B" || p == "C:\\r\\B\\f.txt",
    attrMask := fun _ => some 0,
    writable := fun _ => false,
    content := fun _ => none,
    fmtDate := fun _ => "2024-01-01" }

/-- A host with three identical files and one differing file under `C:\dup`. -/
def fsDup : WinFS :=
  { listdir := fun p => if p == "C:\\dup" then some ["a.txt", "b.txt", "c.txt", "d.txt"] else none,
    statQ := fun p =>
      if p == "C:\\dup\\a.txt" || p == "C:\\dup\\b.txt" || p == "C:\\dup\\c.txt" ||
          p == "C:\\dup\\d.txt" then some ⟨1000, 3⟩
      else if p == "C:\\dup" then some ⟨1000, 0⟩ else none,
    isdir := fun p => p == "C:\\dup",
    isfile := fun p =>
      p == "C:\\dup\\a.txt" || p == "C:\\dup\\b.txt" || p == "C:\\dup\\c.txt" ||
        p == "C:\\dup\\d.txt",
    pathExists := fun p =>
      p == "C:\\dup" || p == "C:\\dup\\a.txt" || p == "C:\\dup\\b.txt" ||
        p == "C:\\dup\\c.txt" || p == "C:\\dup\\d.txt",
    attrMask := fun _ => some 0,
    writable := fun _ => false,
    content := fun p =>
      if p == "C:\\dup\\a.txt" || p == "C:\\dup\\b.txt" || p == "C:\\dup\\c.txt" then
        some [1, 2, 3]
      else if p == "C:\\dup\\d.txt" then some [9] else none,
    fmtDate := fun _ => "2024-01-01" }

/-- A host on which every query fails or is empty. -/
def fsEmpty : WinFS :=
  { listdir := fun _ => none, statQ := fun _ => none, isdir := fun _ => false,
    isfile := fun _ => false, pathExists := fun _ => false, attrMask := fun _ => none,
    writable := fun _ => false, content := fun _ => none, fmtDate := fun _ => "" }

/-- Three same-file samples one day apart with sizes 1 MiB, 2 MiB, 3 MiB. -/
def growthSamples123 : List GrowthSample :=
  [⟨1000000, 1048576⟩, ⟨1086400, 2097152⟩, ⟨1172800, 3145728⟩]

/-- Invariant used for the security-scan theorem: the category keys and the
`potential_threats` bucket of `m2` agree with those of `m`. -/
def scanInvariant (m2 m : ScanResults) : Prop :=
  m2.map Prod.fst = m.map Prod.fst ∧
  assocLookup "potential_threats" m2 = assocLookup "potential_threats" m

/-- Invariant used for the duplicate-finder theorem: every path in every group
of `dups` is a non-system file whose digest is the group's key. -/
def DupInv (is_windows : Bool) (fs : WinFS) (dups : List (List Nat × List String)) : Prop :=
  ∀ g ∈ dups, ∀ p ∈ g.2,
    (get_windows_file_attributes is_windows fs p).system = false ∧
    ∃ c, fs.content p = some c ∧ md5_digest c = g.1

/-! ## Theorems -/

/-- C1 (code bug): search.py's `search_in_file` opens every file with
`errors='ignore'`, so the first encoding (UTF-8) always "succeeds" by silently
dropping undecodable bytes and the cp1251/cp866/latin-1 fallbacks are never
tried.  On the cp1251-encoded file `C:\doc\f.txt` (bytes `c1Bytes`, the word
"привет"), UTF-8 strict decoding fails, the spec's fallback order would decode
it via cp1251 and match line 1, yet the code's per-file search and the whole
content search both return no match. -/
theorem content_search_skips_encoding_fallback :
    utf8DecodeStrict c1Bytes = none ∧
    specDecodeContent c1Bytes = some [1087, 1088, 1080, 1074, 1077, 1090] ∧
    matchingLinesOf (strCodepoints "привет") [1087, 1088, 1080, 1074, 1077, 1090] = [1] ∧
    (search_in_file fsContent "привет" [] "C:\\doc\\f.txt").1 = [] ∧
    recursive_content_search true fsContent "C:\\doc" "привет" = [] :=
  ⟨by decide, by decide, by decide, by decide, by decide⟩

/-- C2 counterexample: with enumeration of `C:\r\A` failing, the analysis
produces no `(level, "ERROR", path)` entry at all for that node (the claim
demands exactly one); the failure stays contained and the sibling `C:\r\B` is
still processed. -/
theorem analyze_structure_error_entry_cex :
    fsErr.listdir "C:\\r\\A" = none ∧
    analyze_windows_structure_recursive true fsErr "C:\\r" =
      [(0, "DIR", "C:\\r\\A"), (0, "DIR", "C:\\r\\B"), (1, "FILE", "C:\\r\\B\\f.txt")] ∧
    ((analyze_windows_structure_recursive true fsErr "C:\\r").filter
      (fun e => e.2.1 == "ERROR")).length = 0 :=
  ⟨by decide, by decide, by decide⟩

/-- C2 (amended): a node at which directory enumeration fails contributes an
empty analysis result — no entries for its contents and no `ERROR` entry — the
failure does not propagate to the caller, and sibling nodes continue to be
processed (`safe_windows_listdir` turns the `OSError` into an empty listing
before the `except` arm that would record `ERROR` can see it). -/
theorem analyze_structure_enumeration_failure_empty (is_windows : Bool) (fs : WinFS)
    (path pattern : String) (level : Nat) (h : fs.listdir path = none) :
    analyze_windows_structure_recursive is_windows fs path pattern level = [] := by
  have h12 : (12 : Nat) = 11 + 1 := rfl
  unfold analyze_windows_structure_recursive
  rw [h12]
  unfold analyze_structure_aux
  simp [safe_windows_listdir, h]

theorem analyze_structure_enumeration_failure_empty_witness :
    fsErr.listdir "C:\\r\\A" = none ∧
    analyze_windows_structure_recursive true fsErr "C:\\r\\A" "*" 1 = [] :=
  ⟨by decide,
   analyze_structure_enumeration_failure_empty true fsErr "C:\\r\\A" "*" 1 (by decide)⟩

/-- C3: on the supported OS, path-syntax validation rejects `"C:D:\x"` with the
too-many-colons error, `"1C:\x"` with the colon-position error, `"C:x"` with
the missing-separator-after-drive error, every path containing a forbidden
character (`/ * ? " < > |`), and every path longer than 260 characters, and
accepts `"C:\Users\test"`; the function reads nothing but its arguments
(no filesystem access). -/
theorem validate_windows_path_rules (p q : String) (c : Char)
    (hc : c ∈ forbidden_chars) (hp : c ∈ p.data) (hq : 260 < q.data.length) :
    validate_windows_path true "C:D:\\x" = (false, .tooManyColons) ∧
    validate_windows_path true "1C:\\x" = (false, .colonPosition) ∧
    validate_windows_path true "C:x" = (false, .missingBackslash) ∧
    (validate_windows_path true p).1 = false ∧
    (validate_windows_path true q).1 = false ∧
    validate_windows_path true "C:\\Users\\test" = (true, .empty) := by
  refine ⟨by decide, by decide, by decide, ?_, ?_, by decide⟩
  · unfold validate_windows_path
    simp only [Bool.not_true, Bool.false_eq_true, if_false]
    cases hcol : colonChecks p.data with
    | some e => rfl
    | none =>
      cases hf : forbidden_chars.find? (fun ch => listHas ch p.data) with
      | some ch => rfl
      | none =>
        exfalso
        have hnone := List.find?_eq_none.mp hf c hc
        simp only [listHas, List.any_eq_true, decide_eq_true_eq] at hnone
        exact hnone ⟨c, hp, rfl⟩
  · unfold validate_windows_path
    simp only [Bool.not_true, Bool.false_eq_true, if_false]
    cases hcol : colonChecks q.data with
    | some e => rfl
    | none =>
      cases hf : forbidden_chars.find? (fun ch => listHas ch q.data) with
      | some ch => rfl
      | none =>
        rw [if_pos hq]

theorem validate_windows_path_rules_witness :
    (validate_windows_path true "C:\\a*b").1 = false ∧
    (validate_windows_path true (String.mk (List.replicate 261 'a'))).1 = false := by
  have hq : 260 < (String.mk (List.replicate 261 'a')).data.length := by
    rw [show (String.mk (List.replicate 261 'a')).data = List.replicate 261 'a' from rfl,
      List.length_replicate]
    omega
  exact ⟨(validate_windows_path_rules "C:\\a*b" (String.mk (List.replicate 261 'a')) '*'
      (by decide) (by decide) hq).2.2.2.1,
    (validate_windows_path_rules "C:\\a*b" (String.mk (List.replicate 261 'a')) '*'
      (by decide) (by decide) hq).2.2.2.2.1⟩

/-- C4: `format_size` chooses the unit by the 1024-power thresholds, renders
every non-byte unit with exactly one fractional digit, and in particular maps
1023 to `"1023 B"`, 1024 to `"1.0 KB"` and 5·1024² to `"5.0 MB"`. -/
theorem format_size_unit_thresholds (n : Nat) :
    (n < 1024 → format_size n = toString n ++ " B") ∧
    (1024 ≤ n → n < 1024 ^ 2 →
      ∃ k, format_size n = toString (k / 10) ++ "." ++ toString (k % 10) ++ " KB") ∧
    (1024 ^ 2 ≤ n → n < 1024 ^ 3 →
      ∃ k, format_size n = toString (k / 10) ++ "." ++ toString (k % 10) ++ " MB") ∧
    (1024 ^ 3 ≤ n → n < 1024 ^ 4 →
      ∃ k, format_size n = toString (k / 10) ++ "." ++ toString (k % 10) ++ " GB") ∧
    (1024 ^ 4 ≤ n →
      ∃ k, format_size n = toString (k / 10) ++ "." ++ toString (k % 10) ++ " TB") ∧
    format_size 1023 = "1023 B" ∧ format_size 1024 = "1.0 KB" ∧
    format_size (1024 * 1024 * 5) = "5.0 MB" := by
  refine ⟨?_, ?_, ?_, ?_, ?_, by decide, by decide, by decide⟩
  · intro h
    unfold format_size
    rw [if_pos h]
  · intro h1 h2
    refine ⟨oneDecimalRHE n 1024, ?_⟩
    unfold format_size
    rw [if_neg (by omega), if_pos h2]
    rfl
  · intro h1 h2
    refine ⟨oneDecimalRHE n (1024 ^ 2), ?_⟩
    unfold format_size
    rw [if_neg (by omega), if_neg (by omega), if_pos h2]
    rfl
  · intro h1 h2
    refine ⟨oneDecimalRHE n (1024 ^ 3), ?_⟩
    unfold format_size
    rw [if_neg (by omega), if_neg (by omega), if_neg (by omega), if_pos h2]
    rfl
  · intro h1
    refine ⟨oneDecimalRHE n (1024 ^ 4), ?_⟩
    unfold format_size
    rw [if_neg (by omega), if_neg (by omega), if_neg (by omega), if_neg (by omega)]
    rfl

theorem format_size_unit_thresholds_witness :
    ∃ k, format_size 2048 = toString (k / 10) ++ "." ++ toString (k % 10) ++ " KB" :=
  (format_size_unit_thresholds 2048).2.1 (by omega) (by omega)

/-- C7 counterexample: the depth check precedes the system check, so a system
path submitted at `depth = max_depth` yields a plain `directory` node with
empty children, not a `system_directory` node as the claim requires of every
system path. -/
theorem build_tree_system_at_max_depth_cex :
    is_windows_system_path "C:\\Windows" = true ∧
    (build_windows_tree_recursive true fsEmpty "C:\\Windows" 0 0).nodeType = "directory" ∧
    build_windows_tree_recursive true fsEmpty "C:\\Windows" 0 0 =
      .dir "Windows" "directory" [] :=
  ⟨by decide, rfl, rfl⟩

/-- C7 (amended): a system path reached below the maximum depth becomes a
`system_directory` node with empty children whose contents are never enumerated
(the result is the same for every filesystem), and any node at
`depth ≥ maxDepth` — the depth check runs first, even on system paths —
becomes a `directory` node with empty children. -/
theorem build_tree_system_and_depth_pruning (is_windows : Bool) (fs : WinFS)
    (path path2 : String) (depth max_depth depth2 max_depth2 : Nat)
    (hs : is_windows_system_path path = true) (hd : depth < max_depth)
    (hd2 : max_depth2 ≤ depth2) :
    build_windows_tree_recursive is_windows fs path depth max_depth =
      .dir (ntBasename path) "system_directory" [] ∧
    build_windows_tree_recursive is_windows fs path2 depth2 max_depth2 =
      .dir (ntBasename path2) "directory" [] := by
  constructor
  · unfold build_windows_tree_recursive build_windows_tree_aux
    rw [if_neg (by omega), if_pos hs]
  · unfold build_windows_tree_recursive build_windows_tree_aux
    rw [if_pos hd2]

theorem build_tree_system_and_depth_pruning_witness :
    build_windows_tree_recursive true fsEmpty "C:\\Windows" 0 5 =
      .dir (ntBasename "C:\\Windows") "system_directory" [] ∧
    build_windows_tree_recursive true fsEmpty "C:\\x" 5 5 =
      .dir (ntBasename "C:\\x") "directory" [] :=
  build_tree_system_and_depth_pruning true fsEmpty "C:\\Windows" "C:\\x" 0 5 5 5
    (by decide) (by omega) (by omega)

/-- C8: `count_files` and `count_bytes` report `success = false` (with a zero
total) exactly when the root path itself fails syntax validation; on every
syntactically valid root — over an arbitrary filesystem, so regardless of
enumeration failures below the root — they report `success = true`. -/
theorem count_files_bytes_root_validation (is_windows : Bool) (fs : WinFS) (path : String) :
    ((count_files is_windows fs path).1 = (validate_windows_path is_windows path).1) ∧
    ((validate_windows_path is_windows path).1 = false →
      count_files is_windows fs path = (false, 0)) ∧
    ((count_bytes is_windows fs path).1 = (validate_windows_path is_windows path).1) ∧
    ((validate_windows_path is_windows path).1 = false →
      count_bytes is_windows fs path = (false, 0)) := by
  cases hv : (validate_windows_path is_windows path).1 <;>
    simp [count_files, count_bytes, hv]

theorem count_files_bytes_root_validation_witness :
    count_files true fsEmpty "C:x" = (false, 0) ∧
    (count_files true fsErr "C:\\r").1 = true ∧
    count_bytes true fsEmpty "C:x" = (false, 0) :=
  ⟨(count_files_bytes_root_validation true fsEmpty "C:x").2.1 (by decide),
   by rw [(count_files_bytes_root_validation true fsErr "C:\\r").1]; decide,
   (count_files_bytes_root_validation true fsEmpty "C:x").2.2.2 (by decide)⟩

/-- C10: for every syntactically valid path the single-level listing returns
`success = true` — in particular when the listing itself fails (`OSError`) the
entry list is simply empty — and every entry of kind `folder` has size 0. -/
theorem list_directory_success_and_folder_size (is_windows : Bool) (fs : WinFS)
    (path : String) (h : (validate_windows_path is_windows path).1 = true) :
    (list_directory is_windows fs path).1 = true ∧
    (fs.listdir path = none → (list_directory is_windows fs path).2 = []) ∧
    (∀ e ∈ (list_directory is_windows fs path).2, e.type = "folder" → e.size = 0) := by
  have hno : ¬ ((validate_windows_path is_windows path).1 = false) := by simp [h]
  refine ⟨by simp [list_directory, hno], ?_, ?_⟩
  · intro hld
    simp [list_directory, hno, safe_windows_listdir, hld]
  · intro e he hf
    simp only [list_directory, if_neg hno] at he
    rw [List.mem_filterMap] at he
    obtain ⟨item_name, hmem, hsome⟩ := he
    cases hst : fs.statQ (ntJoin path item_name) with
    | none => rw [hst] at hsome; simp at hsome
    | some stat_info =>
      rw [hst] at hsome
      simp only [Option.some.injEq] at hsome
      cases hif : fs.isfile (ntJoin path item_name) with
      | true =>
        exfalso
        rw [← hsome] at hf
        simp [hif] at hf
      | false =>
        rw [← hsome]
        simp [hif]

theorem list_directory_success_and_folder_size_witness :
    (list_directory true fsErr "C:\\r").1 = true :=
  (list_directory_success_and_folder_size true fsErr "C:\\r" (by decide)).1

theorem scanInvariant_refl (m : ScanResults) : scanInvariant m m := ⟨rfl, rfl⟩

theorem scanInvariant_trans {a b c : ScanResults}
    (h1 : scanInvariant a b) (h2 : scanInvariant b c) : scanInvariant a c :=
  ⟨h1.1.trans h2.1, h1.2.trans h2.2⟩

theorem addFinding_map_fst (k : String) (f : SecurityFinding) (m : ScanResults) :
    (addFinding k f m).map Prod.fst = m.map Prod.fst := by
  unfold addFinding
  rw [List.map_map]
  apply List.map_congr_left
  intro e _
  by_cases h : e.1 = k <;> simp [h]

theorem addFinding_lookup_ne (k2 k : String) (f : SecurityFinding) (m : ScanResults)
    (h : k ≠ k2) : assocLookup k2 (addFinding k f m) = assocLookup k2 m := by
  induction m with
  | nil => rfl
  | cons e rest ih =>
    by_cases h1 : e.1 = k
    · simp only [addFinding, List.map_cons, if_pos h1, assocLookup]
      by_cases h2 : e.1 = k2
      · exact absurd (h1.symm.trans h2) h
      · rw [if_neg h2, if_neg h2]
        exact ih
    · simp only [addFinding, List.map_cons, if_neg h1, assocLookup]
      by_cases h2 : e.1 = k2
      · rw [if_pos h2, if_pos h2]
      · rw [if_neg h2, if_neg h2]
        exact ih

theorem addFinding_scanInvariant (k : String) (f : SecurityFinding) (m : ScanResults)
    (h : k ≠ "potential_threats") : scanInvariant (addFinding k f m) m :=
  ⟨addFinding_map_fst k f m, addFinding_lookup_ne "potential_threats" k f m h⟩

theorem condAddFinding_scanInvariant (c : Prop) [Decidable c] (k : String)
    (f : SecurityFinding) (m : ScanResults) (h : k ≠ "potential_threats") :
    scanInvariant (if c then addFinding k f m else m) m := by
  split
  · exact addFinding_scanInvariant k f m h
  · exact scanInvariant_refl m

theorem processScanItem_scanInvariant (fs : WinFS) (rules : SecurityRules) (now : Int)
    (recurse : String → ScanResults → ScanResults) (current_path : String)
    (item : DirEntry) (m : ScanResults)
    (hrec : ∀ p m2, scanInvariant (recurse p m2) m2) :
    scanInvariant (processScanItem fs rules now recurse current_path item m) m := by
  unfold processScanItem
  by_cases ht : item.type = "folder"
  · rw [if_pos ht]
    exact scanInvariant_trans (hrec _ _)
      (condAddFinding_scanInvariant _ "hidden_objects" _ m (by decide))
  · rw [if_neg ht]
    exact scanInvariant_trans
      (condAddFinding_scanInvariant _ "open_permissions" _ _ (by decide))
      (scanInvariant_trans
        (condAddFinding_scanInvariant _ "temp_files" _ _ (by decide))
        (scanInvariant_trans
          (condAddFinding_scanInvariant _ "hidden_objects" _ _ (by decide))
          (condAddFinding_scanInvariant _ "suspicious_executables" _ m (by decide))))

theorem scanLoop_scanInvariant (is_windows : Bool) (fs : WinFS) (rules : SecurityRules)
    (now : Int) :
    ∀ (fuel depth : Nat) (p : String) (m : ScanResults),
      scanInvariant (scanLoop is_windows fs rules now fuel depth p m) m := by
  intro fuel
  induction fuel with
  | zero => intro depth p m; exact scanInvariant_refl m
  | succ fuel ih =>
    intro depth p m
    unfold scanLoop
    by_cases hd : 5 < depth
    · rw [if_pos hd]
      exact scanInvariant_refl m
    · rw [if_neg hd]
      dsimp only
      by_cases hsucc : (list_directory is_windows fs p).1 = false
      · rw [if_pos hsucc]
        exact scanInvariant_refl m
      · rw [if_neg hsucc]
        have hfold : ∀ (items : List DirEntry) (m0 : ScanResults),
            scanInvariant (items.foldl
              (fun acc item => processScanItem fs rules now
                (fun p2 m2 => scanLoop is_windows fs rules now fuel (depth + 1) p2 m2)
                p item acc) m0) m0 := by
          intro items
          induction items with
          | nil => intro m0; exact scanInvariant_refl m0
          | cons it rest ihl =>
            intro m0
            rw [List.foldl_cons]
            exact scanInvariant_trans (ihl _)
              (processScanItem_scanInvariant fs rules now _ p it m0
                (fun p2 m2 => ih (depth + 1) p2 m2))
        exact hfold _ m

/-- C9: for every host, root and rule overrides, the security scanner's result
holds exactly the five fixed categories (in their insertion order) and the
`potential_threats` category is always an empty list — no code path appends to
it. -/
theorem security_scan_five_categories (is_windows : Bool) (fs : WinFS) (now : Int)
    (root_path : String) (security_rules : RuleOverrides) :
    (recursive_security_scan is_windows fs now root_path security_rules).map Prod.fst =
      ["suspicious_executables", "open_permissions", "hidden_objects", "temp_files",
       "potential_threats"] ∧
    assocLookup "potential_threats"
      (recursive_security_scan is_windows fs now root_path security_rules) = some [] := by
  have h := scanLoop_scanInvariant is_windows fs (mergeRules security_rules) now 7 0
    root_path initScanResults
  exact ⟨h.1.trans rfl, h.2.trans rfl⟩

theorem addDup_dupInv (is_windows : Bool) (fs : WinFS) (h : List Nat) (p : String)
    (l : List (List Nat × List String)) (hl : DupInv is_windows fs l)
    (hsys : (get_windows_file_attributes is_windows fs p).system = false)
    (hc : ∃ c, fs.content p = some c ∧ md5_digest c = h) :
    DupInv is_windows fs (addDup h p l) := by
  induction l with
  | nil =>
    intro g hg p2 hp2
    simp only [addDup, List.mem_singleton] at hg
    subst hg
    simp only [List.mem_singleton] at hp2
    subst hp2
    exact ⟨hsys, hc⟩
  | cons e rest ih =>
    intro g hg p2 hp2
    simp only [addDup] at hg
    by_cases hk : e.1 = h
    · rw [if_pos hk] at hg
      rcases List.mem_cons.mp hg with hg1 | hg1
      · subst hg1
        simp only at hp2
        rcases List.mem_append.mp hp2 with hp3 | hp3
        · exact hl e (List.mem_cons_self e rest) p2 hp3
        · simp only [List.mem_singleton] at hp3
          subst hp3
          exact ⟨hsys, hk ▸ hc⟩
      · exact hl g (List.mem_cons_of_mem e hg1) p2 hp2
    · rw [if_neg hk] at hg
      rcases List.mem_cons.mp hg with hg1 | hg1
      · subst hg1
        exact hl e (List.mem_cons_self e rest) p2 hp2
      · exact ih (fun g2 hg2 p3 hp3 => hl g2 (List.mem_cons_of_mem e hg2) p3 hp3) g hg1 p2 hp2

theorem dupStep_dupInv (is_windows : Bool) (fs : WinFS)
    (st : List String × List (List Nat × List String)) (fp : String)
    (hst : DupInv is_windows fs st.2) :
    DupInv is_windows fs ((dupStep is_windows fs st fp)).2 := by
  unfold dupStep
  split
  · exact hst
  · split
    · exact hst
    · split
      · exact hst
      · rename_i hsys
        cases hc : fs.content fp with
        | none => exact hst
        | some bytes =>
          exact addDup_dupInv is_windows fs (md5_digest bytes) fp st.2 hst
            (by simpa using hsys) ⟨bytes, hc, rfl⟩

theorem foldl_dupStep_dupInv (is_windows : Bool) (fs : WinFS) :
    ∀ (files : List String) (st : List String × List (List Nat × List String)),
      DupInv is_windows fs st.2 →
      DupInv is_windows fs ((files.foldl (dupStep is_windows fs) st)).2 := by
  intro files
  induction files with
  | nil => intro st h; exact h
  | cons f rest ih =>
    intro st h
    rw [List.foldl_cons]
    exact ih _ (dupStep_dupInv is_windows fs st f h)

/-- C5: every group the duplicate finder returns has at least two members, each
member is a readable file whose digest equals the group's key (so all members
share the same content checksum) and is never system-flagged; and on a
directory holding three byte-identical files plus one differing file it returns
exactly one group, of size 3, omitting the differing file. -/
theorem find_duplicate_files_groups (is_windows : Bool) (fs : WinFS) (path : String)
    (visited : List String) (g : List Nat × List String)
    (hg : g ∈ find_duplicate_files_recursive is_windows fs path visited) :
    (2 ≤ g.2.length ∧ ∀ p ∈ g.2,
      (get_windows_file_attributes is_windows fs p).system = false ∧
      ∃ c, fs.content p = some c ∧ md5_digest c = g.1) ∧
    find_duplicate_files_recursive true fsDup "C:\\dup" =
      [([1, 2, 3], ["C:\\dup\\a.txt", "C:\\dup\\b.txt", "C:\\dup\\c.txt"])] := by
  unfold find_duplicate_files_recursive at hg
  have hfil := List.mem_filter.mp hg
  refine ⟨⟨?_, ?_⟩, by decide⟩
  · have h2 := hfil.2
    simp only [decide_eq_true_eq] at h2
    omega
  · intro p hp
    have hinv := foldl_dupStep_dupInv is_windows fs (safe_file_walk fs path) (visited, [])
      (fun g2 hg2 => absurd hg2 (List.not_mem_nil g2))
    exact hinv g hfil.1 p hp

theorem find_duplicate_files_groups_witness :
    2 ≤ ((([1, 2, 3], ["C:\\dup\\a.txt", "C:\\dup\\b.txt", "C:\\dup\\c.txt"]) :
        List Nat × List String)).2.length ∧
    find_duplicate_files_recursive true fsDup "C:\\dup" =
      [([1, 2, 3], ["C:\\dup\\a.txt", "C:\\dup\\b.txt", "C:\\dup\\c.txt"])] :=
  ⟨(find_duplicate_files_groups true fsDup "C:\\dup" []
      ([1, 2, 3], ["C:\\dup\\a.txt", "C:\\dup\\b.txt", "C:\\dup\\c.txt"])
      (by decide)).1.1,
   (find_duplicate_files_groups true fsDup "C:\\dup" []
      ([1, 2, 3], ["C:\\dup\\a.txt", "C:\\dup\\b.txt", "C:\\dup\\c.txt"])
      (by decide)).2⟩

theorem nodup_assoc_unique {β : Type} (l : List (String × β))
    (hnd : (l.map Prod.fst).Nodup) (k : String) (a b : β)
    (ha : (k, a) ∈ l) (hb : (k, b) ∈ l) : a = b := by
  induction l with
  | nil => cases ha
  | cons e rest ih =>
    rw [List.map_cons, List.nodup_cons] at hnd
    rcases List.mem_cons.mp ha with ha1 | ha1 <;> rcases List.mem_cons.mp hb with hb1 | hb1
    · rw [← ha1] at hb1
      exact congrArg Prod.snd hb1.symm
    · exfalso
      apply hnd.1
      have hk : e.1 = k := by rw [← ha1]
      rw [hk]
      exact List.mem_map_of_mem Prod.fst hb1
    · exfalso
      apply hnd.1
      have hk : e.1 = k := by rw [← hb1]
      rw [hk]
      exact List.mem_map_of_mem Prod.fst ha1
    · exact ih hnd.2 ha1 hb1

/-- C6: the growth predictor omits every file with fewer than 3 collected
samples and every file whose samples give a zero least-squares denominator; any
returned value is the ordinary-least-squares slope
`(n·Σxy − Σx·Σy) / (n·Σx² − (Σx)²)` of size-in-MB against elapsed days of that
file's samples; and three samples one day apart with sizes 1, 2, 3 MiB yield a
slope of exactly 1. -/
theorem predict_growth_ols (gd : List (String × List GrowthSample)) (fp : String)
    (v : ℚ) (data : List GrowthSample)
    (hnd : (gd.map Prod.fst).Nodup) (hin : (fp, data) ∈ gd) :
    (data.length < 3 → ∀ u : ℚ, (fp, u) ∉ predict_storage_growth_recursive gd) ∧
    (olsDen data = 0 → ∀ u : ℚ, (fp, u) ∉ predict_storage_growth_recursive gd) ∧
    ((fp, v) ∈ predict_storage_growth_recursive gd →
      3 ≤ data.length ∧ olsDen data ≠ 0 ∧ v = olsSlope data) ∧
    predict_storage_growth_recursive [("f.txt", growthSamples123)] = [("f.txt", 1)] := by
  have hchar : ∀ u : ℚ, (fp, u) ∈ predict_storage_growth_recursive gd →
      ∃ d, (fp, d) ∈ gd ∧ 3 ≤ d.length ∧ olsDen d ≠ 0 ∧ u = olsSlope d := by
    intro u hu
    unfold predict_storage_growth_recursive at hu
    rw [List.mem_filterMap] at hu
    obtain ⟨e, he, hfe⟩ := hu
    obtain ⟨k, d⟩ := e
    by_cases h3 : 3 ≤ d.length
    · by_cases hden : olsDen d = 0
      · rw [if_pos h3, if_neg (not_not_intro hden)] at hfe
        exact absurd hfe (by simp)
      · rw [if_pos h3, if_pos hden] at hfe
        rw [Option.some.injEq, Prod.mk.injEq] at hfe
        exact ⟨d, hfe.1 ▸ he, h3, hden, hfe.2.symm⟩
    · rw [if_neg h3] at hfe
      exact absurd hfe (by simp)
  refine ⟨?_, ?_, ?_, ?_⟩
  · intro hlen u hu
    obtain ⟨d, hd, h3, _, _⟩ := hchar u hu
    have heq := nodup_assoc_unique gd hnd fp d data hd hin
    rw [heq] at h3
    omega
  · intro hden0 u hu
    obtain ⟨d, hd, _, hden, _⟩ := hchar u hu
    have := nodup_assoc_unique gd hnd fp d data hd hin
    exact hden (this ▸ hden0)
  · intro hv
    obtain ⟨d, hd, h3, hden, hval⟩ := hchar v hv
    have heq := nodup_assoc_unique gd hnd fp d data hd hin
    exact ⟨heq ▸ h3, heq ▸ hden, heq ▸ hval⟩
  · simp [predict_storage_growth_recursive, olsSlope, olsDen, elapsedDays, sizesMB,
      sortByTime, insertByTime, qsum, growthSamples123, List.filterMap]
    norm_num

theorem predict_growth_ols_witness :
    3 ≤ growthSamples123.length ∧ olsDen growthSamples123 ≠ 0 ∧
    (1 : ℚ) = olsSlope growthSamples123 :=
  (predict_growth_ols [("f.txt", growthSamples123)] "f.txt" 1 growthSamples123
      (by decide) (by decide)).2.2.1
    (by
      have h := (predict_growth_ols [("f.txt", growthSamples123)] "f.txt" 1
        growthSamples123 (by decide) (by decide)).2.2.2
      rw [h]
      exact List.mem_singleton.mpr rfl)

end WinExplorer
